import Mathlib

/-!
Verification of the ethics backend (`app.py`): a shallow embedding of the
Flask request handlers, the prompt assembly, and the startup logic, with
theorems settling the specified behaviour of each endpoint.

The external model client is modelled as a function from the submitted
prompt text to either a list of text segments (the content blocks of a
successful response) or an exception message.  Each handler returns the
HTTP response it produces together with a flag recording whether the
external client was invoked during the request.
-/

namespace EthicsApp

/-- JSON values, restricted to the shapes this application produces:
strings and objects with ordered string-keyed fields. -/
inductive Json where
  | str : String → Json
  | obj : List (String × Json) → Json

/-- An HTTP response: status code and JSON body. -/
structure HttpResponse where
  status : Nat
  body : Json

/-- Outcome of one call to the external model client: either the list of
text segments of the content blocks, or the message of a raised exception. -/
abbrev ClientCall := String → Except String (List String)

/-- The single-quote character (code point 39), used to model the Python
string representation of tuples without writing the character directly. -/
def sq : String := String.singleton (Char.ofNat 39)

/-- Python truthiness of an optional string field read with `data.get`:
`None` (missing field) and the empty string are falsy. -/
def pyTruthy : Option String → Bool
  | none => false
  | some s => !(s == "")

/-- Fuel-indexed replacement of every non-overlapping occurrence of `pat`
(nonempty) by `rep`, left to right, over character lists.  The fuel is the
length of the scanned list, so it never runs out. -/
def replaceFuel (pat rep : List Char) : Nat → List Char → List Char
  | _, [] => []
  | 0, l => l
  | fuel+1, c :: cs =>
    if List.isPrefixOf pat (c :: cs) then
      rep ++ replaceFuel pat rep fuel (List.drop (pat.length - 1) cs)
    else
      c :: replaceFuel pat rep fuel cs

/-- Python `template.format(prompt=situation)` for templates whose only
placeholder is `{prompt}`: substitutes the situation for each occurrence. -/
def pyFormat (template situation : String) : String :=
  ⟨replaceFuel ("{prompt}".data) situation.data template.data.length template.data⟩

/-- Python `sep.join(parts)`. -/
def joinWith (sep : String) : List String → String
  | [] => ""
  | [x] => x
  | x :: y :: xs => x ++ sep ++ joinWith sep (y :: xs)

/-- The six fixed `(instruction template, structural tag)` pairs (`STEPS`
in `app.py`). -/
def STEPS : List (String × String) :=
  [ ("Identify the ethical problem or dilemma in the following situation: {prompt}.", "<problem>"),
    ("Apply relevant ethical codes, principles, or frameworks to the identified problem", "<principles>"),
    ("Considering the principles, determine the nature and dimensions of the ethical dilemma, considering all stakeholders and potential consequences", "<dimensions>"),
    ("Given the dimensions, generate potential courses of action to address the ethical dilemma", "<actions>"),
    ("For each course of action, what are the potential consequences, and how do they align with the principles?", "<consequences>"),
    ("Based on the analysis, what is the most ethically justifiable course of action, and why does it align with the relevant principles and minimize harm to stakeholders?", "<answer>") ]

/-- The list comprehension `[step.format(prompt=prompt) for step, tag in STEPS]`. -/
def step_templates (prompt : String) : List String :=
  STEPS.map (fun p => pyFormat p.1 prompt)

/-- Python `str` of a 2-tuple of strings containing no quotes or escapes:
`repr` of each component in single quotes, comma-space separated, in
parentheses. -/
def pyStrPair (p : String × String) : String :=
  "(" ++ sq ++ p.1 ++ sq ++ ", " ++ sq ++ p.2 ++ sq ++ ")"

/-- The prompt built by `ethical_analysis`:
`"\n".join([f"{step}\n{tag}" for step, tag in zip(step_templates, STEPS)])`.
Because the zip pairs each formatted template with the whole `STEPS` entry,
the pattern variable `tag` is bound to the full `(template, tag)` tuple and
the f-string renders it with Python `str`. -/
def combined_prompt (prompt : String) : String :=
  joinWith "\n"
    ((List.zip (step_templates prompt) STEPS).map (fun q => q.1 ++ "\n" ++ pyStrPair q.2))

/-- The function `get_completion(messages)`: concatenates the text of each
content block in order. -/
def get_completion (blocks : List String) : String :=
  String.join blocks

/-- The function `ethical_analysis(prompt, anthropic_client)`: submits the
combined prompt to the client; on success wraps the joined text as
`{"analysis": ...}`, and on any exception returns
`{"error": {"message": str(e), "type": "internal_server_error"}}`. -/
def ethical_analysis (prompt : String) (client : ClientCall) : Json :=
  match client (combined_prompt prompt) with
  | .ok blocks =>
      Json.obj [("analysis", Json.str (get_completion blocks))]
  | .error e =>
      Json.obj [("error", Json.obj
        [("message", Json.str e), ("type", Json.str "internal_server_error")])]

/-- The 400 body of `POST /analysis` when `situation` is missing or falsy. -/
def analysisBadRequestBody : Json :=
  Json.obj
    [("type", Json.str "error"),
     ("error", Json.obj
       [("type", Json.str "invalid_request_error"),
        ("message", Json.str "Situation not provided.")])]

/-- The 500 body built by the outermost handler of `POST /analysis` for an
exception with message `e`. -/
def analysisServerErrorBody (e : String) : Json :=
  Json.obj
    [("type", Json.str "error"),
     ("error", Json.obj
       [("type", Json.str "internal_server_error"),
        ("message", Json.str e)])]

/-- The handler `analyze_ethics` of `POST /analysis`.  The request body is
`Except.error e` when reading or using `request.json` raises an exception
with message `e` (caught by the outermost handler), and `Except.ok s` when
`data.get('situation')` yields `s`.  The returned flag records whether the
external client was called. -/
def analyze_ethics (data : Except String (Option String)) (client : ClientCall) :
    HttpResponse × Bool :=
  match data with
  | .error e => (⟨500, analysisServerErrorBody e⟩, false)
  | .ok situationField =>
    if pyTruthy situationField then
      (⟨200, ethical_analysis (situationField.getD "") client⟩, true)
    else
      (⟨400, analysisBadRequestBody⟩, false)

/-- The user-message content built by `build_grader_prompt(answer, rubric)`.
The single quotes of the source text are spliced in via `sq`. -/
def build_grader_prompt (answer rubric : String) : String :=
  "You will be provided an answer that an assistant gave to one step (prompt) in its chain-of-thought reasoning of this ethical dilemma, and a rubric that instructs you on what makes the answer correct or incorrect.\n    \n    Here is the answer that the assistant gave to the question.\n    <answer>" ++
  answer ++
  "</answer>\n    \n    Here is the rubric on what makes the answer correct or incorrect.\n    <rubric>" ++
  rubric ++
  "</rubric>\n    \n    An answer is correct if it mostly meets the rubric criteria, and otherwise it is incorrect.\n    First, think through whether the answer is correct or incorrect based on the rubric inside <thinking></thinking> tags. Then assign an overall score out of 100 in <score> tags. Finally, output either " ++
  sq ++ "correct" ++ sq ++ " if the answer is correct or " ++ sq ++ "incorrect" ++ sq ++
  " if the answer is incorrect inside <correctness></correctness> tags."

/-- The function `grade_completion(output, rubric)`: builds the grader
message, calls the client, and joins the content blocks into
`{"response": ...}`.  On any exception it re-raises
`RuntimeError(f"Error during grading: {str(e)}")`, modelled as the error
case carrying that message. -/
def grade_completion (output rubric : String) (client : ClientCall) :
    Except String Json :=
  match client (build_grader_prompt output rubric) with
  | .ok blocks => .ok (Json.obj [("response", Json.str (String.join blocks))])
  | .error e => .error ("Error during grading: " ++ e)

/-- The 400 body of `POST /eval` when a required field is missing or falsy. -/
def evalBadRequestBody : Json :=
  Json.obj [("error", Json.str "Prompt, completion, or rubric not provided")]

/-- The handler `evaluate_completion` of `POST /eval`.  The request body is
`Except.error e` when reading or using `request.json` raises, and otherwise
the triple of `data.get` results for `prompt`, `completion`, `rubric`. -/
def evaluate_completion
    (data : Except String (Option String × Option String × Option String))
    (client : ClientCall) : HttpResponse × Bool :=
  match data with
  | .error e => (⟨500, Json.obj [("error", Json.str e)]⟩, false)
  | .ok (promptField, completionField, rubricField) =>
    if !pyTruthy promptField || !pyTruthy completionField || !pyTruthy rubricField then
      (⟨400, evalBadRequestBody⟩, false)
    else
      match grade_completion (completionField.getD "") (rubricField.getD "") client with
      | .ok j => (⟨200, j⟩, true)
      | .error e => (⟨500, Json.obj [("error", Json.str e)]⟩, true)

/-- The handler `get_steps` of `GET /api/steps`: a constant, computed from
`STEPS` alone, with no client parameter — the endpoint performs no external
call. -/
def get_steps : List (String × String) :=
  STEPS.map (fun p => ("<prompt>" ++ p.1 ++ "</prompt>", p.2))

/-- Result of the static file route: an asset served from the static
folder, or the fallback `index.html` document. -/
inductive ServeResult where
  | asset : String → ServeResult
  | index : ServeResult
deriving DecidableEq

/-- The catch-all route `serve(path)`: serves `path` from the static folder
when the path is nonempty and `os.path.exists(app.static_folder + '/' + path)`
holds, and otherwise serves `index.html`.  `ex` models `os.path.exists`. -/
def serve (ex : String → Bool) (path : String) : ServeResult :=
  if path != "" && ex ("static/" ++ path) then ServeResult.asset path
  else ServeResult.index

/-- The constructed API client: `anthropic.Anthropic(api_key=API_KEY)`. -/
structure AnthropicClient where
  api_key : String
deriving DecidableEq

/-- Module-level startup: reads `ANTHROPIC_API_KEY` from the environment,
raises `ValueError` when it is absent, and otherwise constructs the client
with the key. -/
def startup (env : String → Option String) : Except String AnthropicClient :=
  match env "ANTHROPIC_API_KEY" with
  | none => .error "Anthropic API key not found in environment variables."
  | some k => .ok { api_key := k }

/-- Field lookup in a JSON object by key, first occurrence. -/
def lookupField (k : String) : List (String × Json) → Option Json
  | [] => none
  | (k2, v) :: rest => if k == k2 then some v else lookupField k rest

/-- The ErrorEnvelope shape of the specification:
`{type, error: {type, message}}` — a top-level `type` string field plus an
`error` object with `type` and `message` string fields. -/
def isErrorEnvelope : Json → Bool
  | .obj fields =>
    (match lookupField "type" fields with
     | some (.str _) => true
     | _ => false)
    &&
    (match lookupField "error" fields with
     | some (.obj efields) =>
       (match lookupField "type" efields with
        | some (.str _) => true
        | _ => false)
       &&
       (match lookupField "message" efields with
        | some (.str _) => true
        | _ => false)
     | _ => false)
  | _ => false

/-- Modelled from the spec, for comparison with `combined_prompt`: the
composed prompt as the specification describes it — each instruction
template with the situation substituted, followed by a newline and that
step's structural tag string, the six pieces joined by newlines. -/
def composedPromptSpec (situation : String) : String :=
  joinWith "\n" (STEPS.map (fun p => pyFormat p.1 situation ++ "\n" ++ p.2))

/-- The six lines actually produced by `ethical_analysis` for the
situation `"X"`, written out explicitly: each formatted instruction is
followed by the Python `str` of the whole `(template, tag)` tuple — single
quotes, comma-space, parentheses — rather than by the bare tag. -/
def combinedPromptBugLinesX : List String :=
  [ "Identify the ethical problem or dilemma in the following situation: X.\n(" ++ sq ++
    "Identify the ethical problem or dilemma in the following situation: {prompt}." ++ sq ++ ", " ++ sq ++ "<problem>" ++ sq ++ ")",
    "Apply relevant ethical codes, principles, or frameworks to the identified problem\n(" ++ sq ++
    "Apply relevant ethical codes, principles, or frameworks to the identified problem" ++ sq ++ ", " ++ sq ++ "<principles>" ++ sq ++ ")",
    "Considering the principles, determine the nature and dimensions of the ethical dilemma, considering all stakeholders and potential consequences\n(" ++ sq ++
    "Considering the principles, determine the nature and dimensions of the ethical dilemma, considering all stakeholders and potential consequences" ++ sq ++ ", " ++ sq ++ "<dimensions>" ++ sq ++ ")",
    "Given the dimensions, generate potential courses of action to address the ethical dilemma\n(" ++ sq ++
    "Given the dimensions, generate potential courses of action to address the ethical dilemma" ++ sq ++ ", " ++ sq ++ "<actions>" ++ sq ++ ")",
    "For each course of action, what are the potential consequences, and how do they align with the principles?\n(" ++ sq ++
    "For each course of action, what are the potential consequences, and how do they align with the principles?" ++ sq ++ ", " ++ sq ++ "<consequences>" ++ sq ++ ")",
    "Based on the analysis, what is the most ethically justifiable course of action, and why does it align with the relevant principles and minimize harm to stakeholders?\n(" ++ sq ++
    "Based on the analysis, what is the most ethically justifiable course of action, and why does it align with the relevant principles and minimize harm to stakeholders?" ++ sq ++ ", " ++ sq ++ "<answer>" ++ sq ++ ")" ]

set_option maxRecDepth 2000

/-- C1: the claim states that the prompt submitted by `POST /analysis`
is each template with the situation substituted followed by a newline and
that step's structural tag string.  The code instead zips the formatted
templates with the whole `STEPS` pairs, so each formatted template is
followed by the Python rendering of the full `(template, tag)` tuple.  At
the concrete situation `"X"` the submitted prompt differs from the
spec-described composition and equals the tuple-rendered text. -/
theorem combined_prompt_zip_bug :
    combined_prompt "X" ≠ composedPromptSpec "X" ∧
    combined_prompt "X" = joinWith "\n" combinedPromptBugLinesX := by
  constructor
  · decide
  · have h : ((List.zip (step_templates "X") STEPS).map
        (fun q => q.1 ++ "\n" ++ pyStrPair q.2)) = combinedPromptBugLinesX := by
      decide
    rw [combined_prompt, h]

/-- C4: `GET /api/steps` returns exactly six `[instruction, tag]` pairs,
with the tag components in the fixed order `<problem>`, `<principles>`,
`<dimensions>`, `<actions>`, `<consequences>`, `<answer>`; `get_steps` is a
constant computed from `STEPS` alone, so no external call is performed. -/
theorem get_steps_six_tags :
    get_steps.length = 6 ∧
    get_steps.map Prod.snd =
      ["<problem>", "<principles>", "<dimensions>", "<actions>", "<consequences>", "<answer>"] := by
  decide

/-- C5: a `POST /analysis` request whose body has no `situation` field or
an empty `situation` string receives HTTP 400 with the fixed
`invalid_request_error` body, and the external client is not called. -/
theorem analysis_missing_situation_400 (situationField : Option String)
    (h : situationField = none ∨ situationField = some "") (client : ClientCall) :
    analyze_ethics (Except.ok situationField) client = (⟨400, analysisBadRequestBody⟩, false) := by
  rcases h with h | h <;> subst h <;> rfl

/-- Witness for C5 at the concrete missing-field request. -/
theorem analysis_missing_situation_400_witness :
    analyze_ethics (Except.ok none) (fun _ => Except.ok ["X"]) =
      (⟨400, analysisBadRequestBody⟩, false) :=
  analysis_missing_situation_400 none (Or.inl rfl) (fun _ => Except.ok ["X"])

/-- C6: a `POST /eval` request missing any of `prompt`, `completion`,
`rubric` receives HTTP 400 with the fixed message body, and the external
client is not called. -/
theorem eval_missing_field_400 (p c r : Option String)
    (h : p = none ∨ c = none ∨ r = none) (client : ClientCall) :
    evaluate_completion (Except.ok (p, c, r)) client = (⟨400, evalBadRequestBody⟩, false) := by
  rcases h with h | h | h <;> subst h <;>
    simp [evaluate_completion, pyTruthy]

/-- Witness for C6 at the concrete request missing `completion`. -/
theorem eval_missing_field_400_witness :
    evaluate_completion (Except.ok (some "p", none, some "r")) (fun _ => Except.ok ["X"]) =
      (⟨400, evalBadRequestBody⟩, false) :=
  eval_missing_field_400 (some "p") none (some "r") (Or.inr (Or.inl rfl)) (fun _ => Except.ok ["X"])

/-- C10: a `POST /eval` request in which `prompt`, `completion`, or
`rubric` is present but an empty string receives the same HTTP 400
response as a request missing the field entirely, and the external client
is not called. -/
theorem eval_falsy_field_400 (p c r : Option String)
    (h : p = some "" ∨ c = some "" ∨ r = some "") (client : ClientCall) :
    evaluate_completion (Except.ok (p, c, r)) client = (⟨400, evalBadRequestBody⟩, false) ∧
    evaluate_completion (Except.ok (none, none, none)) client = (⟨400, evalBadRequestBody⟩, false) := by
  refine ⟨?_, rfl⟩
  rcases h with h | h | h <;> subst h <;>
    simp [evaluate_completion, pyTruthy]

/-- Witness for C10 at the concrete request with an empty `prompt`. -/
theorem eval_falsy_field_400_witness :
    evaluate_completion (Except.ok (some "", some "c", some "r")) (fun _ => Except.ok ["X"]) =
      (⟨400, evalBadRequestBody⟩, false) ∧
    evaluate_completion (Except.ok (none, none, none)) (fun _ => Except.ok ["X"]) =
      (⟨400, evalBadRequestBody⟩, false) :=
  eval_falsy_field_400 (some "") (some "c") (some "r") (Or.inl rfl) (fun _ => Except.ok ["X"])

/-- C8: the catch-all route serves the fallback index document for the
empty root path and for every path whose file does not exist under the
static folder, and serves the named asset for every nonempty path whose
file does exist. -/
theorem serve_fallback_index (ex : String → Bool) (path : String) :
    ((path = "" ∨ ex ("static/" ++ path) = false) → serve ex path = ServeResult.index) ∧
    ((path ≠ "" ∧ ex ("static/" ++ path) = true) → serve ex path = ServeResult.asset path) := by
  constructor
  · intro h
    rcases h with h | h
    · subst h; rfl
    · simp [serve, h]
  · intro h
    have h1 : (path != "") = true := by simp [bne_iff_ne, h.1]
    simp [serve, h1, h.2]

/-- Witness for C8 at a concrete missing path and a concrete existing
asset path. -/
theorem serve_fallback_index_witness :
    serve (fun _ => false) "missing.txt" = ServeResult.index ∧
    serve (fun _ => true) "app.js" = ServeResult.asset "app.js" :=
  ⟨(serve_fallback_index (fun _ => false) "missing.txt").1 (Or.inr rfl),
   (serve_fallback_index (fun _ => true) "app.js").2 ⟨by decide, rfl⟩⟩

/-- C9: at module startup, a missing `ANTHROPIC_API_KEY` environment
variable raises a `ValueError` so the process fails to start, and a
present key lets startup proceed with the client constructed from that
key. -/
theorem startup_requires_api_key (env : String → Option String) :
    (env "ANTHROPIC_API_KEY" = none →
      startup env = Except.error "Anthropic API key not found in environment variables.") ∧
    (∀ k, env "ANTHROPIC_API_KEY" = some k → startup env = Except.ok ⟨k⟩) := by
  constructor
  · intro h; simp [startup, h]
  · intro k h; simp [startup, h]

/-- Witness for C9 at a concrete empty environment and a concrete
environment holding a key. -/
theorem startup_requires_api_key_witness :
    startup (fun _ => none) = Except.error "Anthropic API key not found in environment variables." ∧
    startup (fun _ => some "sk-test") = Except.ok ⟨"sk-test"⟩ :=
  ⟨(startup_requires_api_key (fun _ => none)).1 rfl,
   (startup_requires_api_key (fun _ => some "sk-test")).2 "sk-test" rfl⟩

/-- C7 counterexample: with all three fields present but `prompt` the
empty string, `POST /eval` does not return `{response: "X"}` even though
the client would return the single segment `"X"` — the handler answers 400
without calling the client. -/
theorem eval_present_empty_field_400 :
    (evaluate_completion (Except.ok (some "", some "c", some "r")) (fun _ => Except.ok ["X"])).1.status = 400 ∧
    (evaluate_completion (Except.ok (some "", some "c", some "r")) (fun _ => Except.ok ["X"])).1.status ≠ 200 := by
  decide

/-- C7 amended: for a `POST /eval` request with all three fields present
and non-empty, when the external client returns a sequence of text
segments the endpoint returns `{response: s}` where `s` is the
concatenation of the segments in arrival order. -/
theorem eval_success_concat (p c r : String)
    (hp : p ≠ "") (hc : c ≠ "") (hr : r ≠ "") (segs : List String) :
    evaluate_completion (Except.ok (some p, some c, some r)) (fun _ => Except.ok segs) =
      (⟨200, Json.obj [("response", Json.str (String.join segs))]⟩, true) := by
  simp [evaluate_completion, pyTruthy, grade_completion, hp, hc, hr]

/-- Witness for C7 at concrete fields and the single segment `"X"`. -/
theorem eval_success_concat_witness :
    evaluate_completion (Except.ok (some "p", some "c", some "r")) (fun _ => Except.ok ["X"]) =
      (⟨200, Json.obj [("response", Json.str (String.join ["X"]))]⟩, true) :=
  eval_success_concat "p" "c" "r" (by decide) (by decide) (by decide) ["X"]

/-- C2 counterexample: when the external call raises, `POST /analysis`
responds with HTTP 200, not 500 — `ethical_analysis` swallows the
exception and returns the error body, and the route returns it with the
default status. -/
theorem analysis_exception_not_500 :
    (analyze_ethics (Except.ok (some "situation")) (fun _ => Except.error "boom")).1.status ≠ 500 ∧
    (analyze_ethics (Except.ok (some "situation")) (fun _ => Except.error "boom")).1.status = 200 := by
  decide

/-- C2 amended: when the external model call raises an exception,
`POST /eval` returns HTTP 500 with an error string containing the
exception message, while `POST /analysis` returns HTTP 200 whose body is
the error object `{error: {message, type: "internal_server_error"}}`
carrying the message; neither handler crashes the process. -/
theorem exception_response_shapes (msg situation p c r : String)
    (hs : situation ≠ "") (hp : p ≠ "") (hc : c ≠ "") (hr : r ≠ "") :
    analyze_ethics (Except.ok (some situation)) (fun _ => Except.error msg) =
      (⟨200, Json.obj [("error", Json.obj
        [("message", Json.str msg), ("type", Json.str "internal_server_error")])]⟩, true) ∧
    evaluate_completion (Except.ok (some p, some c, some r)) (fun _ => Except.error msg) =
      (⟨500, Json.obj [("error", Json.str ("Error during grading: " ++ msg))]⟩, true) := by
  constructor
  · simp [analyze_ethics, ethical_analysis, pyTruthy, hs]
  · simp [evaluate_completion, pyTruthy, grade_completion, hp, hc, hr]

/-- Witness for C2 at a concrete exception message and concrete fields. -/
theorem exception_response_shapes_witness :
    analyze_ethics (Except.ok (some "s")) (fun _ => Except.error "boom") =
      (⟨200, Json.obj [("error", Json.obj
        [("message", Json.str "boom"), ("type", Json.str "internal_server_error")])]⟩, true) ∧
    evaluate_completion (Except.ok (some "p", some "c", some "r")) (fun _ => Except.error "boom") =
      (⟨500, Json.obj [("error", Json.str ("Error during grading: " ++ "boom"))]⟩, true) :=
  exception_response_shapes "boom" "s" "p" "c" "r" (by decide) (by decide) (by decide) (by decide)

/-- C3 counterexample: the 400 response of `POST /eval` does not have the
ErrorEnvelope shape — its body is `{error: <string>}` with no top-level
`type` field and no nested error object. -/
theorem eval_failure_not_envelope :
    isErrorEnvelope ((evaluate_completion (Except.ok (none, none, none)) (fun _ => Except.ok ["X"])).1.body) = false ∧
    (evaluate_completion (Except.ok (none, none, none)) (fun _ => Except.ok ["X"])).1.status = 400 := by
  decide

/-- C3 amended: every 400 or 500 response of `POST /analysis` has the
ErrorEnvelope shape `{type, error: {type, message}}`, while every 400 or
500 response of `POST /eval` instead has the flat shape
`{error: <message string>}`. -/
theorem failure_envelope_shapes :
    (∀ data client, (analyze_ethics data client).1.status = 400 ∨ (analyze_ethics data client).1.status = 500 →
      isErrorEnvelope (analyze_ethics data client).1.body = true) ∧
    (∀ data client, (evaluate_completion data client).1.status = 400 ∨ (evaluate_completion data client).1.status = 500 →
      ∃ m, (evaluate_completion data client).1.body = Json.obj [("error", Json.str m)]) := by
  constructor
  · intro data client h
    rcases data with e | situationField
    · rfl
    · cases hsf : pyTruthy situationField
      · have hbad : analyze_ethics (Except.ok situationField) client =
            (⟨400, analysisBadRequestBody⟩, false) := by
          simp [analyze_ethics, hsf]
        rw [hbad]
        decide
      · simp [analyze_ethics, hsf] at h
  · intro data client h
    rcases data with e | fields
    · exact ⟨e, rfl⟩
    · rcases fields with ⟨p, c, r⟩
      cases hcond : (!pyTruthy p || !pyTruthy c || !pyTruthy r)
      · rcases hg : grade_completion (c.getD "") (r.getD "") client with e | j
        · refine ⟨e, ?_⟩
          simp [evaluate_completion, hcond, hg]
        · simp [evaluate_completion, hcond, hg] at h
      · refine ⟨"Prompt, completion, or rubric not provided", ?_⟩
        have hbad : evaluate_completion (Except.ok (p, c, r)) client =
            (⟨400, evalBadRequestBody⟩, false) := by
          simp [evaluate_completion, hcond]
        rw [hbad]
        rfl

/-- Witness for C3 at concrete failing requests to both endpoints. -/
theorem failure_envelope_shapes_witness :
    isErrorEnvelope ((analyze_ethics (Except.ok none) (fun _ => Except.ok ["X"])).1.body) = true ∧
    ∃ m, (evaluate_completion (Except.ok (some "p", none, none)) (fun _ => Except.ok ["X"])).1.body =
      Json.obj [("error", Json.str m)] :=
  ⟨failure_envelope_shapes.1 (Except.ok none) (fun _ => Except.ok ["X"]) (Or.inl rfl),
   failure_envelope_shapes.2 (Except.ok (some "p", none, none)) (fun _ => Except.ok ["X"]) (Or.inl rfl)⟩

end EthicsApp
